import Mathlib

/-!
Shallow embedding of the middle/back end of the `have` source-to-source compiler
(file `have/ast.go`): the type algebra (Known, String, Kind, ZeroValue,
MapSubtypes, RootType), the top-level dependency tracker (Decls, loadDeps, Deps)
and the generic-instantiation engine (Instantiate over a keyed cache).
Go interface values become an inductive type; machine maps become association
lists; fallible code (runtime panics) returns Option.
-/

/-- Kind discriminants, mirroring the Go constants KIND_SIMPLE .. KIND_UNKNOWN. -/
inductive Kind where
  | KIND_SIMPLE
  | KIND_ARRAY
  | KIND_SLICE
  | KIND_MAP
  | KIND_POINTER
  | KIND_CUSTOM
  | KIND_STRUCT
  | KIND_INTERFACE
  | KIND_TUPLE
  | KIND_FUNC
  | KIND_CHAN
  | KIND_GENERIC_PARAM
  | KIND_GENERIC_INST
  | KIND_UNKNOWN
deriving DecidableEq, Repr

/-- Simple-type discriminants, mirroring the Go constants SIMPLE_TYPE_BOOL .. SIMPLE_TYPE_UINTPTR. -/
inductive SimpleTypeID where
  | SIMPLE_TYPE_BOOL
  | SIMPLE_TYPE_BYTE
  | SIMPLE_TYPE_COMPLEX128
  | SIMPLE_TYPE_COMPLEX64
  | SIMPLE_TYPE_ERROR
  | SIMPLE_TYPE_FLOAT32
  | SIMPLE_TYPE_FLOAT64
  | SIMPLE_TYPE_INT
  | SIMPLE_TYPE_INT16
  | SIMPLE_TYPE_INT32
  | SIMPLE_TYPE_INT64
  | SIMPLE_TYPE_INT8
  | SIMPLE_TYPE_RUNE
  | SIMPLE_TYPE_STRING
  | SIMPLE_TYPE_UINT
  | SIMPLE_TYPE_UINT16
  | SIMPLE_TYPE_UINT32
  | SIMPLE_TYPE_UINT64
  | SIMPLE_TYPE_UINT8
  | SIMPLE_TYPE_UINTPTR
deriving DecidableEq, Repr

/-- Channel direction, mirroring CHAN_DIR_BI / CHAN_DIR_RECEIVE / CHAN_DIR_SEND. -/
inductive ChanDir where
  | CHAN_DIR_BI
  | CHAN_DIR_RECEIVE
  | CHAN_DIR_SEND
deriving DecidableEq, Repr

/-- The Type interface value, one constructor per concrete Go Type struct.
Fields mirror the Go fields read by the modelled methods:
a CustomType carries Decl as Option; the payload of some is the AliasedType of
the declaration (a nil Decl is none).  A GenericParamType carries its Concrete
binding as Option (nil is none).  A GenericType (generic instance) carries the
base name, the Params list and the checker-filled Struct as Option.
StructType Members are an association list in Keys order (method-only keys are
not modelled; no modelled method reads them).  IfaceType method sets are not
modelled for the same reason. -/
inductive Typ where
  | SimpleType (ID : SimpleTypeID)
  | ArrayType (Size : Nat) (Of : Typ)
  | SliceType (Of : Typ)
  | MapType (By : Typ) (Of : Typ)
  | FuncType (Args : List Typ) (Results : List Typ)
  | ChanType (Of : Typ) (Dir : ChanDir)
  | PointerType (To : Typ)
  | TupleType (Members : List Typ)
  | StructType (Name : String) (Members : List (String × Typ))
  | IfaceType (name : String)
  | CustomType (Name : String) (Package : Option String) (Decl : Option Typ)
  | GenericParamType (Name : String) (Concrete : Option Typ)
  | GenericType (Name : String) (Params : List Typ) (Struct : Option Typ)
  | UnknownType

/-- Kind method of every Type implementation. -/
def Typ.kind : Typ → Kind
  | .SimpleType _ => .KIND_SIMPLE
  | .ArrayType _ _ => .KIND_ARRAY
  | .SliceType _ => .KIND_SLICE
  | .MapType _ _ => .KIND_MAP
  | .FuncType _ _ => .KIND_FUNC
  | .ChanType _ _ => .KIND_CHAN
  | .PointerType _ => .KIND_POINTER
  | .TupleType _ => .KIND_TUPLE
  | .StructType _ _ => .KIND_STRUCT
  | .IfaceType _ => .KIND_INTERFACE
  | .CustomType _ _ _ => .KIND_CUSTOM
  | .GenericParamType _ _ => .KIND_GENERIC_PARAM
  | .GenericType _ _ _ => .KIND_GENERIC_INST
  | .UnknownType => .KIND_UNKNOWN

mutual

/-- Known method of every Type implementation, translated case by case:
SimpleType, IfaceType and CustomType always true; UnknownType always false;
GenericParamType false on a nil Concrete, otherwise Concrete.Known();
composites conjoin Known over the same fields the Go methods walk. -/
def Typ.Known : Typ → Bool
  | .SimpleType _ => true
  | .ArrayType _ of => Typ.Known of
  | .SliceType of => Typ.Known of
  | .MapType b o => Typ.Known b && Typ.Known o
  | .FuncType as rs => Typ.knownList as && Typ.knownList rs
  | .ChanType of _ => Typ.Known of
  | .PointerType tt => Typ.Known tt
  | .TupleType ms => Typ.knownList ms
  | .StructType _ fs => Typ.knownFields fs
  | .IfaceType _ => true
  | .CustomType _ _ _ => true
  | .GenericParamType _ none => false
  | .GenericParamType _ (some c) => Typ.Known c
  | .GenericType _ ps _ => Typ.knownList ps
  | .UnknownType => false

/-- Conjunction of Known over a list of types (the range-loop bodies of
FuncType.Known, TupleType.Known and GenericType.Known). -/
def Typ.knownList : List Typ → Bool
  | [] => true
  | t :: ts => Typ.Known t && Typ.knownList ts

/-- Conjunction of Known over the member types of a StructType. -/
def Typ.knownFields : List (String × Typ) → Bool
  | [] => true
  | (_, t) :: fs => Typ.Known t && Typ.knownFields fs

end

/-- simpleTypeAsStr lookup table. -/
def simpleTypeAsStr : SimpleTypeID → String
  | .SIMPLE_TYPE_BOOL => "bool"
  | .SIMPLE_TYPE_BYTE => "byte"
  | .SIMPLE_TYPE_COMPLEX128 => "complex128"
  | .SIMPLE_TYPE_COMPLEX64 => "complex64"
  | .SIMPLE_TYPE_ERROR => "error"
  | .SIMPLE_TYPE_FLOAT32 => "float32"
  | .SIMPLE_TYPE_FLOAT64 => "float64"
  | .SIMPLE_TYPE_INT => "int"
  | .SIMPLE_TYPE_INT16 => "int16"
  | .SIMPLE_TYPE_INT32 => "int32"
  | .SIMPLE_TYPE_INT64 => "int64"
  | .SIMPLE_TYPE_INT8 => "int8"
  | .SIMPLE_TYPE_RUNE => "rune"
  | .SIMPLE_TYPE_STRING => "string"
  | .SIMPLE_TYPE_UINT => "uint"
  | .SIMPLE_TYPE_UINT16 => "uint16"
  | .SIMPLE_TYPE_UINT32 => "uint32"
  | .SIMPLE_TYPE_UINT64 => "uint64"
  | .SIMPLE_TYPE_UINT8 => "uint8"
  | .SIMPLE_TYPE_UINTPTR => "uintptr"

mutual

/-- String method of every Type implementation (canonical textual form).
FuncType inlines the Header helper: parenthesised argument list, then nothing,
one result, or a parenthesised result list. -/
def Typ.str : Typ → String
  | .SimpleType id => simpleTypeAsStr id
  | .ArrayType n of => "[" ++ toString n ++ "]" ++ Typ.str of
  | .SliceType of => "[]" ++ Typ.str of
  | .MapType b o => "map[" ++ Typ.str b ++ "]" ++ Typ.str o
  | .FuncType as [] =>
    "func(" ++ String.intercalate ", " (Typ.strList as) ++ ")"
  | .FuncType as [r] =>
    "func(" ++ String.intercalate ", " (Typ.strList as) ++ ")" ++ " " ++ Typ.str r
  | .FuncType as rs =>
    "func(" ++ String.intercalate ", " (Typ.strList as) ++ ")" ++
      " (" ++ String.intercalate ", " (Typ.strList rs) ++ ")"
  | .ChanType of d =>
    (match d with
     | .CHAN_DIR_RECEIVE => "<-chan "
     | .CHAN_DIR_SEND => "chan<- "
     | .CHAN_DIR_BI => "chan ") ++ Typ.str of
  | .PointerType tt => "*" ++ Typ.str tt
  | .TupleType ms => "(" ++ String.intercalate ", " (Typ.strList ms) ++ ")"
  | .StructType _ fs => "struct \x7b" ++ String.intercalate "; " (Typ.strFields fs) ++ "\x7d"
  | .IfaceType _ => "interface{}"
  | .CustomType n p _ =>
    (match p with
     | none => n
     | some pk => pk ++ "." ++ n)
  | .GenericParamType n c =>
    (match c with
     | none => n
     | some cc => Typ.str cc)
  | .GenericType n ps _ => n ++ "[" ++ String.intercalate ", " (Typ.strList ps) ++ "]"
  | .UnknownType => "_"

/-- String over a list of types, in order. -/
def Typ.strList : List Typ → List String
  | [] => []
  | t :: ts => Typ.str t :: Typ.strList ts

/-- Per-member rendering of StructType.String: key, a space, then the member type. -/
def Typ.strFields : List (String × Typ) → List String
  | [] => []
  | (k, t) :: fs => (k ++ " " ++ Typ.str t) :: Typ.strFields fs

end

/-- The loop body of CustomType.RootType: keep replacing current with
current.Decl.AliasedType while the current kind is KIND_CUSTOM.  A custom link
with a nil Decl makes the Go code dereference nil, modelled as none. -/
def rootWalk : Typ → Option Typ
  | .CustomType _ _ (some a) => rootWalk a
  | .CustomType _ _ none => none
  | t => some t

/-- RootType of the two DeclaredType implementations: a CustomType starts the
walk at its Decl AliasedType; a GenericType returns its checker-filled Struct.
Other kinds have no RootType method, modelled as none. -/
def Typ.RootType : Typ → Option Typ
  | .CustomType _ _ (some a) => rootWalk a
  | .CustomType _ _ none => none
  | .GenericType _ _ st => st
  | _ => none

/-- The walk of rootWalk never grows the term: its result is the argument
itself or a nested alias target. -/
theorem rootWalk_size : ∀ (a r : Typ), rootWalk a = some r → sizeOf r ≤ sizeOf a
  | .CustomType n p (some b), r, h => by
    simp only [rootWalk] at h
    have ih := rootWalk_size b r h
    simp only [Typ.CustomType.sizeOf_spec, Option.some.sizeOf_spec]
    omega
  | .CustomType _ _ none, r, h => by simp [rootWalk] at h
  | .SimpleType i, r, h => by simp_all [rootWalk]
  | .ArrayType n o, r, h => by simp_all [rootWalk]
  | .SliceType o, r, h => by simp_all [rootWalk]
  | .MapType b o, r, h => by simp_all [rootWalk]
  | .FuncType as rs, r, h => by simp_all [rootWalk]
  | .ChanType o d, r, h => by simp_all [rootWalk]
  | .PointerType t, r, h => by simp_all [rootWalk]
  | .TupleType ms, r, h => by simp_all [rootWalk]
  | .StructType n fs, r, h => by simp_all [rootWalk]
  | .IfaceType n, r, h => by simp_all [rootWalk]
  | .GenericParamType n c, r, h => by simp_all [rootWalk]
  | .GenericType n ps st, r, h => by simp_all [rootWalk]
  | .UnknownType, r, h => by simp_all [rootWalk]

/-- ZeroValue method of every Type implementation; none models a runtime panic
(the TupleType method panics outright; GenericParamType and GenericType
dereference a nil Concrete or Struct; CustomType with a nil Decl likewise).
ArrayType renders its own String, an opening brace, Size copies of the element
zero value joined by comma-space, and a closing brace; the element zero value
is only computed when Size is positive, as the Go loop body never runs
otherwise.  StructType renders its own String followed by empty braces.
CustomType delegates to the zero value of its root type. -/
def Typ.ZeroValue : Typ → Option String
  | .SimpleType id =>
    match id with
    | .SIMPLE_TYPE_STRING => some "\"\""
    | .SIMPLE_TYPE_BOOL => some "false"
    | _ => some "0"
  | .ArrayType n of =>
    match n with
    | 0 => some (Typ.str (.ArrayType 0 of) ++ "{}")
    | m + 1 =>
      match Typ.ZeroValue of with
      | some z =>
        some (Typ.str (.ArrayType (m + 1) of) ++ "\x7b" ++
          String.intercalate ", " (List.replicate (m + 1) z) ++ "\x7d")
      | none => none
  | .SliceType _ => some "nil"
  | .MapType _ _ => some "nil"
  | .FuncType _ _ => some "nil"
  | .ChanType _ _ => some "nil"
  | .PointerType _ => some "nil"
  | .TupleType _ => none
  | .StructType n fs => some (Typ.str (.StructType n fs) ++ "{}")
  | .IfaceType _ => some "nil"
  | .CustomType _ _ (some a) =>
    match h : rootWalk a with
    | some r =>
      have : sizeOf r ≤ sizeOf a := rootWalk_size a r h
      Typ.ZeroValue r
    | none => none
  | .CustomType _ _ none => none
  | .GenericParamType _ (some c) => Typ.ZeroValue c
  | .GenericParamType _ none => none
  | .GenericType _ _ (some st) => Typ.ZeroValue st
  | .GenericType _ _ none => none
  | .UnknownType => some "nil"
termination_by t => sizeOf t
decreasing_by
  all_goals simp_wf
  all_goals omega

/-- IsTypeSimple helper. -/
def IsTypeSimple (t : Typ) (simpleType : SimpleTypeID) : Bool :=
  match t with
  | .SimpleType id => id = simpleType
  | _ => false

/-- IsTypeIntKind helper, listing exactly the IDs of the Go switch. -/
def IsTypeIntKind (t : Typ) : Bool :=
  match t with
  | .SimpleType id =>
    match id with
    | .SIMPLE_TYPE_INT | .SIMPLE_TYPE_INT8 | .SIMPLE_TYPE_INT16 | .SIMPLE_TYPE_INT32
    | .SIMPLE_TYPE_INT64 | .SIMPLE_TYPE_UINT8 | .SIMPLE_TYPE_UINT16 | .SIMPLE_TYPE_UINT32
    | .SIMPLE_TYPE_UINT64 | .SIMPLE_TYPE_UINT | .SIMPLE_TYPE_BYTE => true
    | _ => false
  | _ => false

/-- IsTypeFloatKind helper. -/
def IsTypeFloatKind (t : Typ) : Bool :=
  match t with
  | .SimpleType id =>
    match id with
    | .SIMPLE_TYPE_FLOAT32 | .SIMPLE_TYPE_FLOAT64 => true
    | _ => false
  | _ => false

/-- IsTypeComplexType helper. -/
def IsTypeComplexType (t : Typ) : Bool :=
  match t with
  | .SimpleType id =>
    match id with
    | .SIMPLE_TYPE_COMPLEX64 | .SIMPLE_TYPE_COMPLEX128 => true
    | _ => false
  | _ => false

/-- IsTypeNumeric helper: int kind, float kind, complex kind, or rune. -/
def IsTypeNumeric (t : Typ) : Bool :=
  IsTypeIntKind t || IsTypeFloatKind t || IsTypeComplexType t ||
    IsTypeSimple t .SIMPLE_TYPE_RUNE

mutual

/-- Structural (value, not pointer) equality on Type values, used by the
instantiation cache key. -/
def Typ.beq : Typ → Typ → Bool
  | .SimpleType a, .SimpleType b => a == b
  | .ArrayType n a, .ArrayType m b => n == m && Typ.beq a b
  | .SliceType a, .SliceType b => Typ.beq a b
  | .MapType a b, .MapType c d => Typ.beq a c && Typ.beq b d
  | .FuncType as rs, .FuncType bs ss => Typ.beqList as bs && Typ.beqList rs ss
  | .ChanType a d, .ChanType b e => Typ.beq a b && d == e
  | .PointerType a, .PointerType b => Typ.beq a b
  | .TupleType ms, .TupleType ns => Typ.beqList ms ns
  | .StructType n fs, .StructType m gs => n == m && Typ.beqFields fs gs
  | .IfaceType n, .IfaceType m => n == m
  | .CustomType n p d, .CustomType m q e => n == m && p == q && Typ.beqOpt d e
  | .GenericParamType n c, .GenericParamType m d => n == m && Typ.beqOpt c d
  | .GenericType n ps st, .GenericType m qs su =>
    n == m && Typ.beqList ps qs && Typ.beqOpt st su
  | .UnknownType, .UnknownType => true
  | _, _ => false

/-- Structural equality on lists of types. -/
def Typ.beqList : List Typ → List Typ → Bool
  | [], [] => true
  | a :: as, b :: bs => Typ.beq a b && Typ.beqList as bs
  | _, _ => false

/-- Structural equality on optional types. -/
def Typ.beqOpt : Option Typ → Option Typ → Bool
  | none, none => true
  | some a, some b => Typ.beq a b
  | _, _ => false

/-- Structural equality on struct member lists. -/
def Typ.beqFields : List (String × Typ) → List (String × Typ) → Bool
  | [], [] => true
  | (k, a) :: fs, (l, b) :: gs => k == l && Typ.beq a b && Typ.beqFields fs gs
  | _, _ => false

end

mutual

/-- Structural equality is reflexive. -/
theorem Typ.beq_refl : ∀ t : Typ, Typ.beq t t = true
  | .SimpleType a => by simp [Typ.beq]
  | .ArrayType n a => by simp [Typ.beq, Typ.beq_refl a]
  | .SliceType a => by simp [Typ.beq, Typ.beq_refl a]
  | .MapType a b => by simp [Typ.beq, Typ.beq_refl a, Typ.beq_refl b]
  | .FuncType as rs => by simp [Typ.beq, Typ.beqList_refl as, Typ.beqList_refl rs]
  | .ChanType a d => by simp [Typ.beq, Typ.beq_refl a]
  | .PointerType a => by simp [Typ.beq, Typ.beq_refl a]
  | .TupleType ms => by simp [Typ.beq, Typ.beqList_refl ms]
  | .StructType n fs => by simp [Typ.beq, Typ.beqFields_refl fs]
  | .IfaceType n => by simp [Typ.beq]
  | .CustomType n p d => by simp [Typ.beq, Typ.beqOpt_refl d]
  | .GenericParamType n c => by simp [Typ.beq, Typ.beqOpt_refl c]
  | .GenericType n ps st => by simp [Typ.beq, Typ.beqList_refl ps, Typ.beqOpt_refl st]
  | .UnknownType => by simp [Typ.beq]

/-- Structural list equality is reflexive. -/
theorem Typ.beqList_refl : ∀ ts : List Typ, Typ.beqList ts ts = true
  | [] => by simp [Typ.beqList]
  | t :: ts => by simp [Typ.beqList, Typ.beq_refl t, Typ.beqList_refl ts]

/-- Structural optional equality is reflexive. -/
theorem Typ.beqOpt_refl : ∀ d : Option Typ, Typ.beqOpt d d = true
  | none => by simp [Typ.beqOpt]
  | some a => by simp [Typ.beqOpt, Typ.beq_refl a]

/-- Structural member-list equality is reflexive. -/
theorem Typ.beqFields_refl : ∀ fs : List (String × Typ), Typ.beqFields fs fs = true
  | [] => by simp [Typ.beqFields]
  | (k, a) :: fs => by simp [Typ.beqFields, Typ.beq_refl a, Typ.beqFields_refl fs]

end

mutual

/-- Helper mapSubtype: calls the callback on t itself and descends into the
children of t only when the callback answers true (go on).  The callback is a
state transformer, modelling an arbitrary Go closure. -/
def mapSubtype {σ : Type} (cb : σ → Typ → Bool × σ) (t : Typ) (s : σ) : σ :=
  match cb s t with
  | (goOn, s1) => if goOn then Typ.MapSubtypes cb t s1 else s1
termination_by (sizeOf t, 1)
decreasing_by all_goals simp_wf <;> omega

/-- MapSubtypes method of every Type implementation: applies mapSubtype to each
child field in source order; SimpleType, IfaceType, GenericParamType,
UnknownType and a CustomType with a nil Decl visit nothing. -/
def Typ.MapSubtypes {σ : Type} (cb : σ → Typ → Bool × σ) : Typ → σ → σ
  | .SimpleType _, s => s
  | .ArrayType _ of, s => mapSubtype cb of s
  | .SliceType of, s => mapSubtype cb of s
  | .MapType b o, s => mapSubtype cb o (mapSubtype cb b s)
  | .FuncType as rs, s => mapSubtypesL cb rs (mapSubtypesL cb as s)
  | .ChanType of _, s => mapSubtype cb of s
  | .PointerType tt, s => mapSubtype cb tt s
  | .TupleType ms, s => mapSubtypesL cb ms s
  | .StructType _ fs, s => mapSubtypesF cb fs s
  | .IfaceType _, s => s
  | .CustomType _ _ (some a), s => mapSubtype cb a s
  | .CustomType _ _ none, s => s
  | .GenericParamType _ _, s => s
  | .GenericType _ ps _, s => mapSubtypesL cb ps s
  | .UnknownType, s => s
termination_by t _ => (sizeOf t, 0)
decreasing_by all_goals simp_wf <;> omega

/-- Helper mapSubtypes: mapSubtype over a list of types, in order. -/
def mapSubtypesL {σ : Type} (cb : σ → Typ → Bool × σ) : List Typ → σ → σ
  | [], s => s
  | t :: ts, s => mapSubtypesL cb ts (mapSubtype cb t s)
termination_by ts _ => (sizeOf ts, 2)
decreasing_by all_goals simp_wf <;> omega

/-- StructType.MapSubtypes loop: mapSubtype over the members in Keys order. -/
def mapSubtypesF {σ : Type} (cb : σ → Typ → Bool × σ) : List (String × Typ) → σ → σ
  | [], s => s
  | (_, t) :: fs, s => mapSubtypesF cb fs (mapSubtype cb t s)
termination_by fs _ => (sizeOf fs, 2)
decreasing_by all_goals simp_wf <;> omega

end

mutual

/-- Visit order stated by the specification for the traversal rooted at t with
a pure gating callback p: the type itself first, then — only when p answers
continue on t — the traversals of the children, in order. -/
def visitSelf (p : Typ → Bool) (t : Typ) : List Typ :=
  t :: (if p t then visitChildren p t else [])
termination_by (sizeOf t, 1)
decreasing_by all_goals simp_wf <;> omega

/-- Specified visit order of the children of t, in source order. -/
def visitChildren (p : Typ → Bool) : Typ → List Typ
  | .SimpleType _ => []
  | .ArrayType _ of => visitSelf p of
  | .SliceType of => visitSelf p of
  | .MapType b o => visitSelf p b ++ visitSelf p o
  | .FuncType as rs => visitList p as ++ visitList p rs
  | .ChanType of _ => visitSelf p of
  | .PointerType tt => visitSelf p tt
  | .TupleType ms => visitList p ms
  | .StructType _ fs => visitFields p fs
  | .IfaceType _ => []
  | .CustomType _ _ (some a) => visitSelf p a
  | .CustomType _ _ none => []
  | .GenericParamType _ _ => []
  | .GenericType _ ps _ => visitList p ps
  | .UnknownType => []
termination_by t => (sizeOf t, 0)
decreasing_by all_goals simp_wf <;> omega

/-- Specified visit order over a list of sibling types. -/
def visitList (p : Typ → Bool) : List Typ → List Typ
  | [] => []
  | t :: ts => visitSelf p t ++ visitList p ts
termination_by ts => (sizeOf ts, 2)
decreasing_by all_goals simp_wf <;> omega

/-- Specified visit order over struct members. -/
def visitFields (p : Typ → Bool) : List (String × Typ) → List Typ
  | [] => []
  | (_, t) :: fs => visitSelf p t ++ visitFields p fs
termination_by fs => (sizeOf fs, 2)
decreasing_by all_goals simp_wf <;> omega

end

/-- A logging callback over the pure gate p: it answers p on the visited type
and appends the visited type to the state. -/
def logCB (p : Typ → Bool) : List Typ → Typ → Bool × List Typ :=
  fun s u => (p u, s ++ [u])

mutual

/-- Running the code traversal mapSubtype with a logging callback appends
exactly the specified visit order rooted at t. -/
theorem trace_mapSubtype (p : Typ → Bool) (t : Typ) (log : List Typ) :
    mapSubtype (logCB p) t log = log ++ visitSelf p t := by
  rw [mapSubtype, visitSelf]
  show (if p t then Typ.MapSubtypes (logCB p) t (log ++ [t]) else log ++ [t]) = _
  cases hp : p t with
  | true => rw [trace_MapSubtypes p t (log ++ [t])]; simp
  | false => simp
termination_by (sizeOf t, 1)
decreasing_by all_goals simp_wf <;> omega

/-- Running the code traversal MapSubtypes with a logging callback appends
exactly the specified visit order of the children of t. -/
theorem trace_MapSubtypes (p : Typ → Bool) (t : Typ) (log : List Typ) :
    Typ.MapSubtypes (logCB p) t log = log ++ visitChildren p t := by
  cases t with
  | SimpleType id => simp [Typ.MapSubtypes, visitChildren]
  | ArrayType n of =>
    rw [Typ.MapSubtypes, visitChildren, trace_mapSubtype]
  | SliceType of =>
    rw [Typ.MapSubtypes, visitChildren, trace_mapSubtype]
  | MapType b o =>
    rw [Typ.MapSubtypes, visitChildren, trace_mapSubtype, trace_mapSubtype,
      List.append_assoc]
  | FuncType as rs =>
    rw [Typ.MapSubtypes, visitChildren, trace_mapSubtypesL, trace_mapSubtypesL,
      List.append_assoc]
  | ChanType of d =>
    rw [Typ.MapSubtypes, visitChildren, trace_mapSubtype]
  | PointerType tt =>
    rw [Typ.MapSubtypes, visitChildren, trace_mapSubtype]
  | TupleType ms =>
    rw [Typ.MapSubtypes, visitChildren, trace_mapSubtypesL]
  | StructType n fs =>
    rw [Typ.MapSubtypes, visitChildren, trace_mapSubtypesF]
  | IfaceType n => simp [Typ.MapSubtypes, visitChildren]
  | CustomType n pk d =>
    cases d with
    | some a => rw [Typ.MapSubtypes, visitChildren, trace_mapSubtype]
    | none => simp [Typ.MapSubtypes, visitChildren]
  | GenericParamType n c => simp [Typ.MapSubtypes, visitChildren]
  | GenericType n ps st =>
    rw [Typ.MapSubtypes, visitChildren, trace_mapSubtypesL]
  | UnknownType => simp [Typ.MapSubtypes, visitChildren]
termination_by (sizeOf t, 0)
decreasing_by all_goals simp_wf <;> omega

/-- List version of the trace lemma. -/
theorem trace_mapSubtypesL (p : Typ → Bool) (ts : List Typ) (log : List Typ) :
    mapSubtypesL (logCB p) ts log = log ++ visitList p ts := by
  cases ts with
  | nil => simp [mapSubtypesL, visitList]
  | cons t ts =>
    rw [mapSubtypesL, visitList, trace_mapSubtype, trace_mapSubtypesL,
      List.append_assoc]
termination_by (sizeOf ts, 2)
decreasing_by all_goals simp_wf <;> omega

/-- Struct-member version of the trace lemma. -/
theorem trace_mapSubtypesF (p : Typ → Bool) (fs : List (String × Typ)) (log : List Typ) :
    mapSubtypesF (logCB p) fs log = log ++ visitFields p fs := by
  cases fs with
  | nil => simp [mapSubtypesF, visitFields]
  | cons f fs =>
    obtain ⟨k, t⟩ := f
    rw [mapSubtypesF, visitFields, trace_mapSubtype, trace_mapSubtypesF,
      List.append_assoc]
termination_by (sizeOf fs, 2)
decreasing_by all_goals simp_wf <;> omega

end

mutual

/-- Every subtype reachable through the MapSubtypes child relation, the type
itself included, satisfies Known.  This is the specification reading of
"every reachable subtype is known" with reachability taken from the traversal:
a CustomType descends into the AliasedType of its declaration. -/
def Typ.deepKnownM : Typ → Bool
  | .SimpleType i => Typ.Known (.SimpleType i)
  | .ArrayType n of => Typ.Known (.ArrayType n of) && Typ.deepKnownM of
  | .SliceType of => Typ.Known (.SliceType of) && Typ.deepKnownM of
  | .MapType b o => Typ.Known (.MapType b o) && Typ.deepKnownM b && Typ.deepKnownM o
  | .FuncType as rs =>
    Typ.Known (.FuncType as rs) && Typ.deepKnownMList as && Typ.deepKnownMList rs
  | .ChanType of d => Typ.Known (.ChanType of d) && Typ.deepKnownM of
  | .PointerType tt => Typ.Known (.PointerType tt) && Typ.deepKnownM tt
  | .TupleType ms => Typ.Known (.TupleType ms) && Typ.deepKnownMList ms
  | .StructType n fs => Typ.Known (.StructType n fs) && Typ.deepKnownMFields fs
  | .IfaceType n => Typ.Known (.IfaceType n)
  | .CustomType n p (some a) => Typ.Known (.CustomType n p (some a)) && Typ.deepKnownM a
  | .CustomType n p none => Typ.Known (.CustomType n p none)
  | .GenericParamType n c => Typ.Known (.GenericParamType n c)
  | .GenericType n ps st => Typ.Known (.GenericType n ps st) && Typ.deepKnownMList ps
  | .UnknownType => Typ.Known .UnknownType

/-- deepKnownM over sibling lists. -/
def Typ.deepKnownMList : List Typ → Bool
  | [] => true
  | t :: ts => Typ.deepKnownM t && Typ.deepKnownMList ts

/-- deepKnownM over struct members. -/
def Typ.deepKnownMFields : List (String × Typ) → Bool
  | [] => true
  | (_, t) :: fs => Typ.deepKnownM t && Typ.deepKnownMFields fs

end

mutual

/-- Every subtype reachable without crossing an alias boundary satisfies Known:
like deepKnownM, except that a CustomType is a leaf (its aliased chain is not
descended into) and a GenericParamType descends into its Concrete binding.
This is the reachability that the Known methods themselves induce. -/
def Typ.deepKnownK : Typ → Bool
  | .SimpleType i => Typ.Known (.SimpleType i)
  | .ArrayType n of => Typ.Known (.ArrayType n of) && Typ.deepKnownK of
  | .SliceType of => Typ.Known (.SliceType of) && Typ.deepKnownK of
  | .MapType b o => Typ.Known (.MapType b o) && Typ.deepKnownK b && Typ.deepKnownK o
  | .FuncType as rs =>
    Typ.Known (.FuncType as rs) && Typ.deepKnownKList as && Typ.deepKnownKList rs
  | .ChanType of d => Typ.Known (.ChanType of d) && Typ.deepKnownK of
  | .PointerType tt => Typ.Known (.PointerType tt) && Typ.deepKnownK tt
  | .TupleType ms => Typ.Known (.TupleType ms) && Typ.deepKnownKList ms
  | .StructType n fs => Typ.Known (.StructType n fs) && Typ.deepKnownKFields fs
  | .IfaceType n => Typ.Known (.IfaceType n)
  | .CustomType n p d => Typ.Known (.CustomType n p d)
  | .GenericParamType n (some c) =>
    Typ.Known (.GenericParamType n (some c)) && Typ.deepKnownK c
  | .GenericParamType n none => Typ.Known (.GenericParamType n none)
  | .GenericType n ps st => Typ.Known (.GenericType n ps st) && Typ.deepKnownKList ps
  | .UnknownType => Typ.Known .UnknownType

/-- deepKnownK over sibling lists. -/
def Typ.deepKnownKList : List Typ → Bool
  | [] => true
  | t :: ts => Typ.deepKnownK t && Typ.deepKnownKList ts

/-- deepKnownK over struct members. -/
def Typ.deepKnownKFields : List (String × Typ) → Bool
  | [] => true
  | (_, t) :: fs => Typ.deepKnownK t && Typ.deepKnownKFields fs

end

mutual

/-- The one-level Known computation agrees with the transitive alias-opaque
formulation on every type. -/
theorem Typ.known_eq_deepKnownK : ∀ t : Typ, Typ.Known t = Typ.deepKnownK t
  | .SimpleType i => by simp [Typ.Known, Typ.deepKnownK]
  | .ArrayType n of => by
    simp [Typ.Known, Typ.deepKnownK, ← Typ.known_eq_deepKnownK of, Bool.and_self]
  | .SliceType of => by
    simp [Typ.Known, Typ.deepKnownK, ← Typ.known_eq_deepKnownK of, Bool.and_self]
  | .MapType b o => by
    simp only [Typ.Known, Typ.deepKnownK, ← Typ.known_eq_deepKnownK b,
      ← Typ.known_eq_deepKnownK o]
    cases Typ.Known b <;> cases Typ.Known o <;> rfl
  | .FuncType as rs => by
    simp only [Typ.Known, Typ.deepKnownK, ← Typ.knownList_eq_deepKnownKList as,
      ← Typ.knownList_eq_deepKnownKList rs]
    cases Typ.knownList as <;> cases Typ.knownList rs <;> rfl
  | .ChanType of d => by
    simp [Typ.Known, Typ.deepKnownK, ← Typ.known_eq_deepKnownK of, Bool.and_self]
  | .PointerType tt => by
    simp [Typ.Known, Typ.deepKnownK, ← Typ.known_eq_deepKnownK tt, Bool.and_self]
  | .TupleType ms => by
    simp [Typ.Known, Typ.deepKnownK, ← Typ.knownList_eq_deepKnownKList ms, Bool.and_self]
  | .StructType n fs => by
    simp [Typ.Known, Typ.deepKnownK, ← Typ.knownFields_eq_deepKnownKFields fs,
      Bool.and_self]
  | .IfaceType n => by simp [Typ.Known, Typ.deepKnownK]
  | .CustomType n p d => by simp [Typ.Known, Typ.deepKnownK]
  | .GenericParamType n (some c) => by
    simp [Typ.Known, Typ.deepKnownK, ← Typ.known_eq_deepKnownK c, Bool.and_self]
  | .GenericParamType n none => by simp [Typ.Known, Typ.deepKnownK]
  | .GenericType n ps st => by
    simp [Typ.Known, Typ.deepKnownK, ← Typ.knownList_eq_deepKnownKList ps, Bool.and_self]
  | .UnknownType => by simp [Typ.Known, Typ.deepKnownK]

/-- List version of known_eq_deepKnownK. -/
theorem Typ.knownList_eq_deepKnownKList :
    ∀ ts : List Typ, Typ.knownList ts = Typ.deepKnownKList ts
  | [] => by simp [Typ.knownList, Typ.deepKnownKList]
  | t :: ts => by
    simp [Typ.knownList, Typ.deepKnownKList, Typ.known_eq_deepKnownK t,
      Typ.knownList_eq_deepKnownKList ts]

/-- Struct-member version of known_eq_deepKnownK. -/
theorem Typ.knownFields_eq_deepKnownKFields :
    ∀ fs : List (String × Typ), Typ.knownFields fs = Typ.deepKnownKFields fs
  | [] => by simp [Typ.knownFields, Typ.deepKnownKFields]
  | (k, t) :: fs => by
    simp [Typ.knownFields, Typ.deepKnownKFields, Typ.known_eq_deepKnownK t,
      Typ.knownFields_eq_deepKnownKFields fs]

end

/-- The chain of types visited by the RootType loop, starting at a given type:
the type itself, then — while the head is a custom type with a declaration —
the aliased type of that declaration.  A custom type with a nil declaration
ends the chain (the Go loop would fault there). -/
def aliasChain : Typ → List Typ
  | .CustomType n p (some a) => .CustomType n p (some a) :: aliasChain a
  | t => [t]

/-- A chain of aliases is proper when following the aliased links from the
given type always reaches declared links and ends at a non-custom type. -/
def properAlias : Typ → Bool
  | .CustomType _ _ (some a) => properAlias a
  | .CustomType _ _ none => false
  | _ => true

/-- Declaration object produced by a nested negotiation run (the Go Object
interface value owned by an Instantiation).  Only its identity matters here. -/
structure Obj where
  id : Nat
deriving DecidableEq, Repr

/-- GenericFunc template: parameter names, base function name and the stored
source code.  The imports and token-file location fields play no part in the
modelled behaviour and are omitted. -/
structure GenericFunc where
  params : List String
  funcName : String
  code : List Char
deriving DecidableEq, Repr

/-- GenericStruct template: parameter names, base struct name and the stored
source code.  The imports and token-file location fields are omitted as above. -/
structure GenericStruct where
  params : List String
  strucName : String
  code : List Char
deriving DecidableEq, Repr

/-- A value of the Generic interface: either a function or a struct template.
Go compares templates by identity (the interface value in the key); separately
constructed Lean values that are equal model the same template. -/
inductive GenericT where
  | func (gf : GenericFunc)
  | struc (gs : GenericStruct)
deriving DecidableEq, Repr

/-- Base name of a generic template (Name method of both implementations). -/
def GenericT.baseName : GenericT → String
  | .func gf => gf.funcName
  | .struc gs => gs.strucName

/-- Modelled from the spec: the instantiation cache key built by NewInstKey,
whose definition is outside this file of the repository.  Per the spec it is
derived from the template identity plus a structural (value, not pointer)
encoding of the argument types; the argument types themselves serve as that
structural encoding. -/
structure InstKey where
  generic : GenericT
  args : List Typ

/-- Modelled from the spec: NewInstKey, the cache-key constructor. -/
def NewInstKey (g : GenericT) (params : List Typ) : InstKey :=
  ⟨g, params⟩

/-- Value equality of cache keys: template identity and structural equality of
the encoded argument lists. -/
def InstKey.beq (a b : InstKey) : Bool :=
  (a.generic == b.generic) && Typ.beqList a.args b.args

/-- Cache keys are equal to themselves. -/
theorem InstKey.beq_self (k : InstKey) : InstKey.beq k k = true := by
  simp [InstKey.beq, Typ.beqList_refl]

/-- Modelled from the spec: the Instantiation record, whose definition is
outside this file of the repository.  It owns the template, the concrete
argument list and, once checking has bound it, the resulting declaration
object (none until then). -/
structure Instantiation where
  Generic : GenericT
  Params : List Typ
  Object : Option Obj

/-- Modelled from the spec: Instantiation.getGoName, the deterministic
generated external name, derived from the base name and the argument
signature. -/
def Instantiation.getGoName (i : Instantiation) : String :=
  i.Generic.baseName ++ "_" ++ String.intercalate "_" (Typ.strList i.Params)

/-- Modelled from the spec: the instantiations cache of a TypesContext, a map
from structural keys to Instantiation records, as an association list.  The Go
map stores a pointer to the record; in-place mutation of a stored record is
modelled by updateInst below. -/
structure TypesContext where
  instantiations : List (InstKey × Instantiation)

/-- Map lookup over the association list, by value equality of keys. -/
def lookupInst : List (InstKey × Instantiation) → InstKey → Option Instantiation
  | [], _ => none
  | (k, i) :: rest, key => if InstKey.beq k key then some i else lookupInst rest key

/-- Replacement of the record stored under a key, modelling the in-place
mutation that checking performs through the pointer the map shares. -/
def updateInst : List (InstKey × Instantiation) → InstKey → Instantiation →
    List (InstKey × Instantiation)
  | [], _, _ => []
  | (k, i) :: rest, key, r =>
    if InstKey.beq k key then (k, r) :: rest else (k, i) :: updateInst rest key r

/-- The nested parse-and-negotiate run of an instantiation: given the current
context it yields the resulting declaration object and the aggregated error
list of the run.  Instantiate is proved for every such oracle. -/
def Checker : Type :=
  TypesContext → GenericT → List Typ → Option Obj × List String

/-- Modelled from the spec: Instantiation.ParseAndCheck, whose definition is
outside this file of the repository.  It re-parses the stored template code
with the parameters substituted and runs the dependency and negotiation
pipeline (the check oracle, which observes the current context, entry
included); on success it binds the resulting declaration object into the
record, and on failure it returns the full aggregated error list, leaving the
record object nil and evicting nothing. -/
def Instantiation.ParseAndCheck (check : Checker) (tc : TypesContext)
    (r : Instantiation) : Instantiation × List String :=
  match check tc r.Generic r.Params with
  | (obj, errs) => if errs.isEmpty then ({ r with Object := obj }, errs) else (r, errs)

/-- The result quadruple of Generic.Instantiate: the context (Go mutates it in
place), the declaration object, the generated external name, and the errors. -/
structure InstResult where
  tc : TypesContext
  Object : Option Obj
  name : String
  errs : List String

/-- GenericFunc.Instantiate, translated line by line: build the key; on a
cache hit return the stored object and its generated name with no errors;
otherwise insert a fresh record under the key, run ParseAndCheck (which sees
the context with the entry already inserted and mutates the stored record),
and return either the errors or the checked object and its generated name. -/
def GenericFunc.Instantiate (check : Checker) (gf : GenericFunc)
    (tc : TypesContext) (params : List Typ) : InstResult :=
  let instKey := NewInstKey (.func gf) params
  match lookupInst tc.instantiations instKey with
  | some i => ⟨tc, i.Object, i.getGoName, []⟩
  | none =>
    let r : Instantiation := ⟨.func gf, params, none⟩
    let tcIn : TypesContext := ⟨(instKey, r) :: tc.instantiations⟩
    let pr := Instantiation.ParseAndCheck check tcIn r
    let tcOut : TypesContext := ⟨updateInst tcIn.instantiations instKey pr.1⟩
    if pr.2.isEmpty then ⟨tcOut, pr.1.Object, pr.1.getGoName, []⟩
    else ⟨tcOut, none, "", pr.2⟩

/-- GenericStruct.Instantiate, translated line by line; identical to the
function version except that both returning paths yield the fixed name
string sliwka instead of a generated one. -/
def GenericStruct.Instantiate (check : Checker) (gs : GenericStruct)
    (tc : TypesContext) (params : List Typ) : InstResult :=
  let instKey := NewInstKey (.struc gs) params
  match lookupInst tc.instantiations instKey with
  | some i => ⟨tc, i.Object, "sliwka", []⟩
  | none =>
    let r : Instantiation := ⟨.struc gs, params, none⟩
    let tcIn : TypesContext := ⟨(instKey, r) :: tc.instantiations⟩
    let pr := Instantiation.ParseAndCheck check tcIn r
    let tcOut : TypesContext := ⟨updateInst tcIn.instantiations instKey pr.1⟩
    if pr.2.isEmpty then ⟨tcOut, pr.1.Object, "sliwka", []⟩
    else ⟨tcOut, none, "", pr.2⟩

/-- Looking up the key just placed at the head of the cache finds its record. -/
theorem lookupInst_cons_self (key : InstKey) (r : Instantiation)
    (rest : List (InstKey × Instantiation)) :
    lookupInst ((key, r) :: rest) key = some r := by
  simp [lookupInst, InstKey.beq_self]

/-- Updating the record stored under the head key replaces exactly that entry. -/
theorem updateInst_cons_self (key : InstKey) (r r1 : Instantiation)
    (rest : List (InstKey × Instantiation)) :
    updateInst ((key, r) :: rest) key r1 = (key, r1) :: rest := by
  simp [updateInst, InstKey.beq_self]

/-- Variable object: only the name is read by the dependency tracker. -/
structure Variable where
  name : String
deriving DecidableEq, Repr

/-- VarDecl: variables and their initializer expressions.  Initializers are
irrelevant to Decls (eachPair passes a nil initializer to trailing variables
and the Decls callback ignores it), so only their count is kept. -/
structure VarDecl where
  Vars : List Variable
  Inits : List Unit
deriving DecidableEq, Repr

/-- DeclChain: a chain of VarDecl values. -/
abbrev DeclChain : Type := List VarDecl

/-- The names appended by the Decls callback over DeclChain.eachPair: one name
per variable of every VarDecl, in order, independent of the initializers. -/
def DeclChain.varNames (ad : DeclChain) : List String :=
  match ad with
  | [] => []
  | vd :: rest => vd.Vars.map Variable.name ++ DeclChain.varNames rest

/-- The statement variants of the AST file, with exactly the payloads that
TopLevelStmt.Decls reads: the declared chain for VarStmt and the declared name
for the single-name declaring kinds.  PassStmt, ReturnStmt and WhenStmt are
the statement shapes of the file that fall to the panicking default branch. -/
inductive Stm where
  | VarStmt (Vars : DeclChain) (IsFuncStmt : Bool)
  | StructStmt (declName : String)
  | TypeDeclStmt (name : String)
  | IfaceStmt (name : String)
  | GenericFuncStmt (name : String)
  | GenericStructStmt (name : String)
  | ImportStmt (name : String) (path : String)
  | AssignStmt
  | SendStmt
  | SwitchStmt
  | ExprStmt
  | IfStmt
  | ForStmt
  | ForRangeStmt
  | BranchStmt
  | LabelStmt (name : String)
  | PassStmt
  | ReturnStmt
  | WhenStmt

/-- TopLevelStmt.Decls, translated case by case; none models the panic of the
default branch (a fatal internal-consistency failure, not a compile error).
The declStmt interface case of the Go switch only fires for statement types
defined outside the repository (a test leak, per the source comment) and has
no counterpart in this closed variant set. -/
def Stm.Decls : Stm → Option (List String)
  | .VarStmt vars _ => some (DeclChain.varNames vars)
  | .StructStmt n => some [n]
  | .TypeDeclStmt n => some [n]
  | .IfaceStmt n => some [n]
  | .GenericFuncStmt n => some [n]
  | .GenericStructStmt n => some [n]
  | .ImportStmt _ _ => some []
  | .AssignStmt => some []
  | .SendStmt => some []
  | .SwitchStmt => some []
  | .ExprStmt => some []
  | .IfStmt => some []
  | .ForStmt => some []
  | .ForRangeStmt => some []
  | .BranchStmt => some []
  | .LabelStmt _ => some []
  | .PassStmt => none
  | .ReturnStmt => none
  | .WhenStmt => none

/-- TopLevelStmt: a wrapped statement with the unbound-type and unbound-ident
maps (modelled by their key lists) and the deps slice that loadDeps fills. -/
structure TopLevelStmt where
  stmt : Stm
  unboundTypes : List String
  unboundIdents : List String
  deps : List String

/-- TopLevelStmt.loadDeps: build the uniqueness map over the keys of
unboundTypes and then of unboundIdents, and store the key set as deps. -/
def TopLevelStmt.loadDeps (s : TopLevelStmt) : TopLevelStmt :=
  { s with deps := (s.unboundTypes ++ s.unboundIdents).dedup }

/-- TopLevelStmt.Deps: returns the stored deps slice. -/
def TopLevelStmt.Deps (s : TopLevelStmt) : List String :=
  s.deps

/-- Sample concrete type: int. -/
def tIntEx : Typ := .SimpleType .SIMPLE_TYPE_INT

/-- Sample generic function template. -/
def gfEx : GenericFunc := ⟨["T"], "id", []⟩

/-- Sample generic struct template. -/
def gsEx : GenericStruct := ⟨["T"], "Stack", []⟩

/-- Sample declaration object. -/
def objEx : Obj := ⟨1⟩

/-- A check oracle whose nested run always succeeds with objEx. -/
def checkOkEx : Checker := fun _ _ _ => (some objEx, [])

/-- A check oracle whose nested run always fails with one error. -/
def checkFailEx : Checker := fun _ _ _ => (none, ["boom"])

/-- An empty instantiation cache. -/
def tcEmpty : TypesContext := ⟨[]⟩

/-- A cached successful instantiation of gfEx at int. -/
def instFEx : Instantiation := ⟨.func gfEx, [tIntEx], some objEx⟩

/-- A context already holding instFEx under its key. -/
def tcHitFEx : TypesContext := ⟨[(NewInstKey (.func gfEx) [tIntEx], instFEx)]⟩

/-- A cached successful instantiation of gsEx at int. -/
def instSEx : Instantiation := ⟨.struc gsEx, [tIntEx], some objEx⟩

/-- A context already holding instSEx under its key. -/
def tcHitSEx : TypesContext := ⟨[(NewInstKey (.struc gsEx) [tIntEx], instSEx)]⟩

/-- Cache-hit shape of GenericFunc.Instantiate: a present key returns the
stored object and its generated name, no errors, and the context unchanged,
without consulting the check oracle. -/
theorem instantiateF_hit (check : Checker) (gf : GenericFunc) (tc : TypesContext)
    (params : List Typ) (i : Instantiation)
    (h : lookupInst tc.instantiations (NewInstKey (.func gf) params) = some i) :
    GenericFunc.Instantiate check gf tc params = ⟨tc, i.Object, i.getGoName, []⟩ := by
  simp [GenericFunc.Instantiate, h]

/-- Cache-miss shape of GenericFunc.Instantiate: the fresh record is inserted
at the head of the cache before ParseAndCheck runs, ParseAndCheck sees that
extended context, and the stored record ends up checked. -/
theorem instantiateF_miss (check : Checker) (gf : GenericFunc) (tc : TypesContext)
    (params : List Typ)
    (h : lookupInst tc.instantiations (NewInstKey (.func gf) params) = none) :
    GenericFunc.Instantiate check gf tc params =
      (let pr := Instantiation.ParseAndCheck check
          ⟨(NewInstKey (.func gf) params, ⟨.func gf, params, none⟩) :: tc.instantiations⟩
          ⟨.func gf, params, none⟩
       if pr.2.isEmpty then
         ⟨⟨(NewInstKey (.func gf) params, pr.1) :: tc.instantiations⟩,
           pr.1.Object, pr.1.getGoName, []⟩
       else ⟨⟨(NewInstKey (.func gf) params, pr.1) :: tc.instantiations⟩, none, "", pr.2⟩) := by
  simp only [GenericFunc.Instantiate, h, updateInst_cons_self]

/-- Cache-hit shape of GenericStruct.Instantiate, with the fixed name. -/
theorem instantiateS_hit (check : Checker) (gs : GenericStruct) (tc : TypesContext)
    (params : List Typ) (i : Instantiation)
    (h : lookupInst tc.instantiations (NewInstKey (.struc gs) params) = some i) :
    GenericStruct.Instantiate check gs tc params = ⟨tc, i.Object, "sliwka", []⟩ := by
  simp [GenericStruct.Instantiate, h]

/-- Cache-miss shape of GenericStruct.Instantiate. -/
theorem instantiateS_miss (check : Checker) (gs : GenericStruct) (tc : TypesContext)
    (params : List Typ)
    (h : lookupInst tc.instantiations (NewInstKey (.struc gs) params) = none) :
    GenericStruct.Instantiate check gs tc params =
      (let pr := Instantiation.ParseAndCheck check
          ⟨(NewInstKey (.struc gs) params, ⟨.struc gs, params, none⟩) :: tc.instantiations⟩
          ⟨.struc gs, params, none⟩
       if pr.2.isEmpty then
         ⟨⟨(NewInstKey (.struc gs) params, pr.1) :: tc.instantiations⟩,
           pr.1.Object, "sliwka", []⟩
       else ⟨⟨(NewInstKey (.struc gs) params, pr.1) :: tc.instantiations⟩, none, "", pr.2⟩) := by
  simp only [GenericStruct.Instantiate, h, updateInst_cons_self]

/-- Helper for C1, function templates: once a call to Instantiate has returned
without errors, a repeated call with an equal argument list returns the very
same result record — same object, same generated name, no errors, and an
unchanged cache, so no second instantiation record exists. -/
theorem instantiateF_idem (check : Checker) (gf : GenericFunc) (tc : TypesContext)
    (params : List Typ)
    (hf : (GenericFunc.Instantiate check gf tc params).errs = []) :
    GenericFunc.Instantiate check gf (GenericFunc.Instantiate check gf tc params).tc params
      = GenericFunc.Instantiate check gf tc params := by
  cases h : lookupInst tc.instantiations (NewInstKey (.func gf) params) with
  | some i =>
    have e := instantiateF_hit check gf tc params i h
    rw [e]
    exact e
  | none =>
    have e := instantiateF_miss check gf tc params h
    rw [e] at hf ⊢
    cases hp : (Instantiation.ParseAndCheck check
        ⟨(NewInstKey (.func gf) params, ⟨.func gf, params, none⟩) :: tc.instantiations⟩
        ⟨.func gf, params, none⟩).2.isEmpty with
    | true =>
      simp only [hp, if_true]
      exact instantiateF_hit check gf _ params _ (lookupInst_cons_self _ _ _)
    | false =>
      simp [hp] at hf
      simp [hf] at hp

/-- Helper for C1, struct templates. -/
theorem instantiateS_idem (check : Checker) (gs : GenericStruct) (tc : TypesContext)
    (params : List Typ)
    (hs : (GenericStruct.Instantiate check gs tc params).errs = []) :
    GenericStruct.Instantiate check gs (GenericStruct.Instantiate check gs tc params).tc params
      = GenericStruct.Instantiate check gs tc params := by
  cases h : lookupInst tc.instantiations (NewInstKey (.struc gs) params) with
  | some i =>
    have e := instantiateS_hit check gs tc params i h
    rw [e]
    exact e
  | none =>
    have e := instantiateS_miss check gs tc params h
    rw [e] at hs ⊢
    cases hp : (Instantiation.ParseAndCheck check
        ⟨(NewInstKey (.struc gs) params, ⟨.struc gs, params, none⟩) :: tc.instantiations⟩
        ⟨.struc gs, params, none⟩).2.isEmpty with
    | true =>
      simp only [hp, if_true]
      exact instantiateS_hit check gs _ params _ (lookupInst_cons_self _ _ _)
    | false =>
      simp [hp] at hs
      simp [hs] at hp

/-- Claim C1: instantiating the same generic template (function or struct)
twice with structurally equal argument lists yields the same generated
external name and the same underlying declaration object, and creates no
second instantiation record: the repeated call returns the identical result,
cache included.  The cache key is the template identity plus the value
encoding of the argument types, so equal argument lists are the same key
(pointer identity does not exist in this embedding). -/
theorem c1_instantiate_memoized (check : Checker) (gf : GenericFunc)
    (gs : GenericStruct) (tc tcs : TypesContext) (params paramss : List Typ)
    (hf : (GenericFunc.Instantiate check gf tc params).errs = [])
    (hs : (GenericStruct.Instantiate check gs tcs paramss).errs = []) :
    GenericFunc.Instantiate check gf (GenericFunc.Instantiate check gf tc params).tc params
      = GenericFunc.Instantiate check gf tc params ∧
    GenericStruct.Instantiate check gs (GenericStruct.Instantiate check gs tcs paramss).tc paramss
      = GenericStruct.Instantiate check gs tcs paramss :=
  ⟨instantiateF_idem check gf tc params hf, instantiateS_idem check gs tcs paramss hs⟩

/-- Witness for C1 at concrete inputs: a successful first instantiation of a
function template and of a struct template, each repeated. -/
theorem c1_witness :
    (GenericFunc.Instantiate checkOkEx gfEx tcEmpty [tIntEx]).errs = [] ∧
    (GenericStruct.Instantiate checkOkEx gsEx tcEmpty [tIntEx]).errs = [] ∧
    (GenericFunc.Instantiate checkOkEx gfEx
        (GenericFunc.Instantiate checkOkEx gfEx tcEmpty [tIntEx]).tc [tIntEx]
      = GenericFunc.Instantiate checkOkEx gfEx tcEmpty [tIntEx] ∧
    GenericStruct.Instantiate checkOkEx gsEx
        (GenericStruct.Instantiate checkOkEx gsEx tcEmpty [tIntEx]).tc [tIntEx]
      = GenericStruct.Instantiate checkOkEx gsEx tcEmpty [tIntEx]) :=
  ⟨rfl, rfl, c1_instantiate_memoized checkOkEx gfEx gsEx tcEmpty tcEmpty [tIntEx] [tIntEx] rfl rfl⟩

/-- Helper for C2, function templates: the nested check run is only ever
consulted at a context that already contains the entry for the requested key,
so two oracles that agree on all such contexts make Instantiate agree. -/
theorem instantiateF_checks_entry_present (check1 check2 : Checker) (gf : GenericFunc)
    (tc : TypesContext) (params : List Typ)
    (hagree : ∀ (tc2 : TypesContext) (g : GenericT) (ps : List Typ),
      lookupInst tc2.instantiations (NewInstKey (.func gf) params) ≠ none →
      check1 tc2 g ps = check2 tc2 g ps) :
    GenericFunc.Instantiate check1 gf tc params
      = GenericFunc.Instantiate check2 gf tc params := by
  cases h : lookupInst tc.instantiations (NewInstKey (.func gf) params) with
  | some i =>
    rw [instantiateF_hit check1 gf tc params i h, instantiateF_hit check2 gf tc params i h]
  | none =>
    rw [instantiateF_miss check1 gf tc params h, instantiateF_miss check2 gf tc params h]
    have hpresent : lookupInst
        (⟨(NewInstKey (.func gf) params, (⟨.func gf, params, none⟩ : Instantiation)) ::
          tc.instantiations⟩ : TypesContext).instantiations
        (NewInstKey (.func gf) params) ≠ none := by
      rw [lookupInst_cons_self]
      simp
    rw [Instantiation.ParseAndCheck, Instantiation.ParseAndCheck,
      hagree _ (.func gf) params hpresent]

/-- Helper for C2, struct templates. -/
theorem instantiateS_checks_entry_present (check1 check2 : Checker) (gs : GenericStruct)
    (tc : TypesContext) (params : List Typ)
    (hagree : ∀ (tc2 : TypesContext) (g : GenericT) (ps : List Typ),
      lookupInst tc2.instantiations (NewInstKey (.struc gs) params) ≠ none →
      check1 tc2 g ps = check2 tc2 g ps) :
    GenericStruct.Instantiate check1 gs tc params
      = GenericStruct.Instantiate check2 gs tc params := by
  cases h : lookupInst tc.instantiations (NewInstKey (.struc gs) params) with
  | some i =>
    rw [instantiateS_hit check1 gs tc params i h, instantiateS_hit check2 gs tc params i h]
  | none =>
    rw [instantiateS_miss check1 gs tc params h, instantiateS_miss check2 gs tc params h]
    have hpresent : lookupInst
        (⟨(NewInstKey (.struc gs) params, (⟨.struc gs, params, none⟩ : Instantiation)) ::
          tc.instantiations⟩ : TypesContext).instantiations
        (NewInstKey (.struc gs) params) ≠ none := by
      rw [lookupInst_cons_self]
      simp
    rw [Instantiation.ParseAndCheck, Instantiation.ParseAndCheck,
      hagree _ (.struc gs) params hpresent]

/-- Claim C2: the cache entry is inserted before the template body is checked,
and a request for a key already present short-circuits through the cache-hit
path.  Formally: (a) Instantiate only consults the nested check run at
contexts that already contain the entry for the requested key — two oracles
agreeing on all such contexts are indistinguishable to it; (b) when the key is
present, Instantiate returns the cached object and name with no errors, an
unchanged context, and no dependence on the check oracle at all, so a
recursive request issued while checking the body cannot re-enter
instantiation and a self-referential generic cannot diverge through it. -/
theorem c2_insert_before_compute :
    (∀ (check1 check2 : Checker) (gf : GenericFunc) (tc : TypesContext) (params : List Typ),
      (∀ (tc2 : TypesContext) (g : GenericT) (ps : List Typ),
        lookupInst tc2.instantiations (NewInstKey (.func gf) params) ≠ none →
        check1 tc2 g ps = check2 tc2 g ps) →
      GenericFunc.Instantiate check1 gf tc params
        = GenericFunc.Instantiate check2 gf tc params) ∧
    (∀ (check : Checker) (gf : GenericFunc) (tc : TypesContext) (params : List Typ)
        (i : Instantiation),
      lookupInst tc.instantiations (NewInstKey (.func gf) params) = some i →
      GenericFunc.Instantiate check gf tc params = ⟨tc, i.Object, i.getGoName, []⟩) ∧
    (∀ (check1 check2 : Checker) (gs : GenericStruct) (tc : TypesContext) (params : List Typ),
      (∀ (tc2 : TypesContext) (g : GenericT) (ps : List Typ),
        lookupInst tc2.instantiations (NewInstKey (.struc gs) params) ≠ none →
        check1 tc2 g ps = check2 tc2 g ps) →
      GenericStruct.Instantiate check1 gs tc params
        = GenericStruct.Instantiate check2 gs tc params) ∧
    (∀ (check : Checker) (gs : GenericStruct) (tc : TypesContext) (params : List Typ)
        (i : Instantiation),
      lookupInst tc.instantiations (NewInstKey (.struc gs) params) = some i →
      GenericStruct.Instantiate check gs tc params = ⟨tc, i.Object, "sliwka", []⟩) :=
  ⟨fun c1 c2 gf tc ps h => instantiateF_checks_entry_present c1 c2 gf tc ps h,
   fun check gf tc ps i h => instantiateF_hit check gf tc ps i h,
   fun c1 c2 gs tc ps h => instantiateS_checks_entry_present c1 c2 gs tc ps h,
   fun check gs tc ps i h => instantiateS_hit check gs tc ps i h⟩

/-- Witness for C2 at concrete inputs: the oracle-agreement parts applied to
one oracle against itself on the empty cache, and the short-circuit parts
applied to contexts already holding the sample entries. -/
theorem c2_witness :
    GenericFunc.Instantiate checkOkEx gfEx tcEmpty [tIntEx]
      = GenericFunc.Instantiate checkOkEx gfEx tcEmpty [tIntEx] ∧
    GenericFunc.Instantiate checkFailEx gfEx tcHitFEx [tIntEx]
      = ⟨tcHitFEx, instFEx.Object, instFEx.getGoName, []⟩ ∧
    GenericStruct.Instantiate checkOkEx gsEx tcEmpty [tIntEx]
      = GenericStruct.Instantiate checkOkEx gsEx tcEmpty [tIntEx] ∧
    GenericStruct.Instantiate checkFailEx gsEx tcHitSEx [tIntEx]
      = ⟨tcHitSEx, instSEx.Object, "sliwka", []⟩ :=
  ⟨c2_insert_before_compute.1 checkOkEx checkOkEx gfEx tcEmpty [tIntEx]
      (fun _ _ _ _ => rfl),
   c2_insert_before_compute.2.1 checkFailEx gfEx tcHitFEx [tIntEx] instFEx
      (lookupInst_cons_self (NewInstKey (.func gfEx) [tIntEx]) instFEx []),
   c2_insert_before_compute.2.2.1 checkOkEx checkOkEx gsEx tcEmpty [tIntEx]
      (fun _ _ _ _ => rfl),
   c2_insert_before_compute.2.2.2 checkFailEx gsEx tcHitSEx [tIntEx] instSEx
      (lookupInst_cons_self (NewInstKey (.struc gsEx) [tIntEx]) instSEx [])⟩

/-- Counterexample to claim C3 as stated: a first instantiation of gfEx at int
whose nested run fails with the error boom returns that error, but the
repeated request for the same (template, arguments) key returns an empty error
list — the cache-hit path swallows the failure. -/
theorem c3_counterexample :
    (GenericFunc.Instantiate checkFailEx gfEx tcEmpty [tIntEx]).errs = ["boom"] ∧
    (GenericFunc.Instantiate checkFailEx gfEx
        (GenericFunc.Instantiate checkFailEx gfEx tcEmpty [tIntEx]).tc [tIntEx]).errs = [] := by
  have e := instantiateF_miss checkFailEx gfEx tcEmpty [tIntEx] rfl
  have hpr : Instantiation.ParseAndCheck checkFailEx
      ⟨(NewInstKey (.func gfEx) [tIntEx],
        (⟨.func gfEx, [tIntEx], none⟩ : Instantiation)) :: tcEmpty.instantiations⟩
      ⟨.func gfEx, [tIntEx], none⟩
      = (⟨.func gfEx, [tIntEx], none⟩, ["boom"]) := rfl
  rw [hpr] at e
  simp only [List.isEmpty_cons, Bool.false_eq_true, if_false] at e
  constructor
  · rw [e]
  · rw [e]
    exact congrArg InstResult.errs
      (instantiateF_hit checkFailEx gfEx _ [tIntEx] _ (lookupInst_cons_self _ _ _))

/-- Helper for C3 (amended), function templates: a cache miss whose nested run
produces a non-empty error list returns exactly that list. -/
theorem instantiateF_errs_surface (check : Checker) (gf : GenericFunc)
    (tc : TypesContext) (params : List Typ)
    (hmiss : lookupInst tc.instantiations (NewInstKey (.func gf) params) = none)
    (herr : (check ⟨(NewInstKey (.func gf) params,
        (⟨.func gf, params, none⟩ : Instantiation)) :: tc.instantiations⟩
        (.func gf) params).2 ≠ []) :
    (GenericFunc.Instantiate check gf tc params).errs =
      (check ⟨(NewInstKey (.func gf) params,
        (⟨.func gf, params, none⟩ : Instantiation)) :: tc.instantiations⟩
        (.func gf) params).2 := by
  rw [instantiateF_miss check gf tc params hmiss]
  rw [Instantiation.ParseAndCheck]
  simp only [List.isEmpty_eq_true]
  cases hc : check ⟨(NewInstKey (.func gf) params,
      (⟨.func gf, params, none⟩ : Instantiation)) :: tc.instantiations⟩ (.func gf) params with
  | mk obj errs =>
    rw [hc] at herr
    simp only [herr, if_false]

/-- Helper for C3 (amended), struct templates. -/
theorem instantiateS_errs_surface (check : Checker) (gs : GenericStruct)
    (tc : TypesContext) (params : List Typ)
    (hmiss : lookupInst tc.instantiations (NewInstKey (.struc gs) params) = none)
    (herr : (check ⟨(NewInstKey (.struc gs) params,
        (⟨.struc gs, params, none⟩ : Instantiation)) :: tc.instantiations⟩
        (.struc gs) params).2 ≠ []) :
    (GenericStruct.Instantiate check gs tc params).errs =
      (check ⟨(NewInstKey (.struc gs) params,
        (⟨.struc gs, params, none⟩ : Instantiation)) :: tc.instantiations⟩
        (.struc gs) params).2 := by
  rw [instantiateS_miss check gs tc params hmiss]
  rw [Instantiation.ParseAndCheck]
  simp only [List.isEmpty_eq_true]
  cases hc : check ⟨(NewInstKey (.struc gs) params,
      (⟨.struc gs, params, none⟩ : Instantiation)) :: tc.instantiations⟩ (.struc gs) params with
  | mk obj errs =>
    rw [hc] at herr
    simp only [herr, if_false]

/-- Claim C3 as amended: the call that actually performs the nested
parse-and-check run returns its full error list to the caller; but a repeated
request for the same (template, arguments) key — after any first attempt,
failed ones included — takes the cache-hit path and returns an empty error
list (with whatever object the cached record holds), because failed
instantiations remain cached as present. -/
theorem c3_errors_surfaced_once (check : Checker) (gf : GenericFunc)
    (gs : GenericStruct) (tc tcs tch tcsh : TypesContext)
    (params paramss paramsh paramssh : List Typ) (i j : Instantiation)
    (hmissf : lookupInst tc.instantiations (NewInstKey (.func gf) params) = none)
    (herrf : (check ⟨(NewInstKey (.func gf) params,
        (⟨.func gf, params, none⟩ : Instantiation)) :: tc.instantiations⟩
        (.func gf) params).2 ≠ [])
    (hmisss : lookupInst tcs.instantiations (NewInstKey (.struc gs) paramss) = none)
    (herrs : (check ⟨(NewInstKey (.struc gs) paramss,
        (⟨.struc gs, paramss, none⟩ : Instantiation)) :: tcs.instantiations⟩
        (.struc gs) paramss).2 ≠ [])
    (hhitf : lookupInst tch.instantiations (NewInstKey (.func gf) paramsh) = some i)
    (hhits : lookupInst tcsh.instantiations (NewInstKey (.struc gs) paramssh) = some j) :
    (GenericFunc.Instantiate check gf tc params).errs =
      (check ⟨(NewInstKey (.func gf) params,
        (⟨.func gf, params, none⟩ : Instantiation)) :: tc.instantiations⟩
        (.func gf) params).2 ∧
    (GenericStruct.Instantiate check gs tcs paramss).errs =
      (check ⟨(NewInstKey (.struc gs) paramss,
        (⟨.struc gs, paramss, none⟩ : Instantiation)) :: tcs.instantiations⟩
        (.struc gs) paramss).2 ∧
    (GenericFunc.Instantiate check gf tch paramsh).errs = [] ∧
    (GenericStruct.Instantiate check gs tcsh paramssh).errs = [] := by
  refine ⟨instantiateF_errs_surface check gf tc params hmissf herrf,
    instantiateS_errs_surface check gs tcs paramss hmisss herrs, ?_, ?_⟩
  · rw [instantiateF_hit check gf tch paramsh i hhitf]
  · rw [instantiateS_hit check gs tcsh paramssh j hhits]

/-- Witness for C3 (amended) at concrete inputs: failing first instantiations
on the empty cache and repeated requests against the sample hit contexts. -/
theorem c3_witness :
    (GenericFunc.Instantiate checkFailEx gfEx tcEmpty [tIntEx]).errs =
      (checkFailEx ⟨[(NewInstKey (.func gfEx) [tIntEx],
        (⟨.func gfEx, [tIntEx], none⟩ : Instantiation))]⟩ (.func gfEx) [tIntEx]).2 ∧
    (GenericStruct.Instantiate checkFailEx gsEx tcEmpty [tIntEx]).errs =
      (checkFailEx ⟨[(NewInstKey (.struc gsEx) [tIntEx],
        (⟨.struc gsEx, [tIntEx], none⟩ : Instantiation))]⟩ (.struc gsEx) [tIntEx]).2 ∧
    (GenericFunc.Instantiate checkFailEx gfEx tcHitFEx [tIntEx]).errs = [] ∧
    (GenericStruct.Instantiate checkFailEx gsEx tcHitSEx [tIntEx]).errs = [] :=
  c3_errors_surfaced_once checkFailEx gfEx gsEx tcEmpty tcEmpty tcHitFEx tcHitSEx
    [tIntEx] [tIntEx] [tIntEx] [tIntEx] instFEx instSEx
    rfl (by simp [checkFailEx]) rfl (by simp [checkFailEx])
    (lookupInst_cons_self (NewInstKey (.func gfEx) [tIntEx]) instFEx [])
    (lookupInst_cons_self (NewInstKey (.struc gsEx) [tIntEx]) instSEx [])

/-- Claim C4, evaluated at the failing inputs: GenericStruct.Instantiate
returns the fixed placeholder name sliwka for every struct instantiation —
different templates, different argument lists and the cache-hit path all yield
the same constant — where the claim requires a deterministic mangled name
derived from the base name and the argument signature. -/
theorem c4_struct_placeholder_name :
    (GenericStruct.Instantiate checkOkEx gsEx tcEmpty [tIntEx]).name = "sliwka" ∧
    (GenericStruct.Instantiate checkOkEx ⟨["U"], "Queue", []⟩ tcEmpty
        [.SimpleType .SIMPLE_TYPE_STRING]).name = "sliwka" ∧
    (GenericStruct.Instantiate checkOkEx gsEx tcHitSEx [tIntEx]).name = "sliwka" := by
  refine ⟨rfl, rfl, ?_⟩
  rw [instantiateS_hit checkOkEx gsEx tcHitSEx [tIntEx] instSEx
    (lookupInst_cons_self (NewInstKey (.struc gsEx) [tIntEx]) instSEx [])]

/-- Counterexample to claim C5 as stated: the zero value of a struct type
named Foo with one int field is an empty-braces literal of its structural
String rendering, not of its name. -/
theorem c5_counterexample :
    Typ.ZeroValue (.StructType "Foo" [("x", .SimpleType .SIMPLE_TYPE_INT)]) =
      some "struct {x int}{}" ∧
    Typ.ZeroValue (.StructType "Foo" [("x", .SimpleType .SIMPLE_TYPE_INT)]) ≠
      some "Foo{}" := by
  have h : Typ.ZeroValue (.StructType "Foo" [("x", .SimpleType .SIMPLE_TYPE_INT)]) =
      some (Typ.str (.StructType "Foo" [("x", .SimpleType .SIMPLE_TYPE_INT)]) ++ "{}") := by
    simp [Typ.ZeroValue]
  have hs : Typ.str (.StructType "Foo" [("x", .SimpleType .SIMPLE_TYPE_INT)]) =
      "struct {x int}" := by
    simp only [Typ.str, Typ.strFields, simpleTypeAsStr, String.intercalate]
    rfl
  rw [h, hs]
  constructor
  · rfl
  · decide

/-- Claim C5 as amended: ZeroValue follows the per-kind rule — numeric, bool
and string simple kinds yield the literal defaults; slice, map, chan, func,
pointer and interface kinds yield nil; an array of size N yields an N-element
literal of its element zero value (prefixed, as in the code, by the array
String rendering); a struct yields an empty-braces literal of its structural
String rendering (not of its name, which the claim stated); and a tuple has no
materializable zero value — requesting it is a fatal internal error, modelled
as none. -/
theorem c5_zerovalue_per_kind :
    (∀ id, IsTypeNumeric (.SimpleType id) = true →
      Typ.ZeroValue (.SimpleType id) = some "0") ∧
    Typ.ZeroValue (.SimpleType .SIMPLE_TYPE_BOOL) = some "false" ∧
    Typ.ZeroValue (.SimpleType .SIMPLE_TYPE_STRING) = some "\"\"" ∧
    (∀ of, Typ.ZeroValue (.SliceType of) = some "nil") ∧
    (∀ b o, Typ.ZeroValue (.MapType b o) = some "nil") ∧
    (∀ of d, Typ.ZeroValue (.ChanType of d) = some "nil") ∧
    (∀ as rs, Typ.ZeroValue (.FuncType as rs) = some "nil") ∧
    (∀ tt, Typ.ZeroValue (.PointerType tt) = some "nil") ∧
    (∀ nm, Typ.ZeroValue (.IfaceType nm) = some "nil") ∧
    (∀ n of z, Typ.ZeroValue of = some z →
      Typ.ZeroValue (.ArrayType n of) =
        some (Typ.str (.ArrayType n of) ++ "\x7b" ++
          String.intercalate ", " (List.replicate n z) ++ "\x7d")) ∧
    (∀ nm fs, Typ.ZeroValue (.StructType nm fs) =
      some (Typ.str (.StructType nm fs) ++ "{}")) ∧
    (∀ ms, Typ.ZeroValue (.TupleType ms) = none) := by
  refine ⟨?_, by simp [Typ.ZeroValue], by simp [Typ.ZeroValue], by simp [Typ.ZeroValue],
    by simp [Typ.ZeroValue], by simp [Typ.ZeroValue], by simp [Typ.ZeroValue],
    by simp [Typ.ZeroValue], by simp [Typ.ZeroValue], ?_, by simp [Typ.ZeroValue],
    by simp [Typ.ZeroValue]⟩
  · intro id h
    cases id <;>
      simp_all [Typ.ZeroValue, IsTypeNumeric, IsTypeIntKind, IsTypeFloatKind,
        IsTypeComplexType, IsTypeSimple]
  · intro n of z h
    cases n with
    | zero =>
      simp only [Typ.ZeroValue, List.replicate, String.intercalate]
      rw [String.append_empty, String.append_assoc]
      rw [show ("\x7b" ++ "\x7d" : String) = "{}" from rfl]
    | succ m =>
      simp [Typ.ZeroValue, h]

/-- Witness for C5 at concrete inputs: int is numeric with zero value 0, and a
two-element int array renders two comma-joined zero elements. -/
theorem c5_witness :
    Typ.ZeroValue (.SimpleType .SIMPLE_TYPE_INT) = some "0" ∧
    Typ.ZeroValue (.ArrayType 2 (.SimpleType .SIMPLE_TYPE_INT)) =
      some (Typ.str (.ArrayType 2 (.SimpleType .SIMPLE_TYPE_INT)) ++ "\x7b" ++
        String.intercalate ", " (List.replicate 2 "0") ++ "\x7d") :=
  ⟨c5_zerovalue_per_kind.1 .SIMPLE_TYPE_INT (by decide),
   (c5_zerovalue_per_kind.2.2.2.2.2.2.2.2.2.1) 2 (.SimpleType .SIMPLE_TYPE_INT) "0"
     (c5_zerovalue_per_kind.1 .SIMPLE_TYPE_INT (by decide))⟩

/-- Counterexample to claim C6 as stated: a custom type aliasing the Unknown
type is a composite (kind KIND_CUSTOM) whose Known() is true even though its
MapSubtypes-reachable subtype Unknown is not known — Known does not descend
through the alias boundary, so the claimed iff fails. -/
theorem c6_counterexample :
    Typ.kind (.CustomType "A" none (some .UnknownType)) = Kind.KIND_CUSTOM ∧
    Typ.Known (.CustomType "A" none (some .UnknownType)) = true ∧
    Typ.deepKnownM (.CustomType "A" none (some .UnknownType)) = false := by
  refine ⟨rfl, by simp [Typ.Known], ?_⟩
  simp [Typ.deepKnownM, Typ.Known]

/-- Claim C6 as amended: Known is monotonic up to alias boundaries — for every
Type value, composites included, Known() equals the conjunction of Known over
every subtype reachable without descending through the aliased chain of a
custom type (a custom type counts as known regardless of its chain, and a
generic parameter contributes through its concrete binding); the Unknown type
is never known.  The unamended claim fails only because a custom type hides
whatever lies beneath its alias, as the counterexample shows. -/
theorem c6_known_monotone_alias_opaque :
    (∀ t : Typ, Typ.Known t = Typ.deepKnownK t) ∧
    Typ.Known .UnknownType = false :=
  ⟨Typ.known_eq_deepKnownK, by simp [Typ.Known]⟩

/-- Helper for C7: over a proper (declared, terminating) alias chain, the
RootType walk returns exactly the first element of the chain whose kind is
not custom — every element before it is custom. -/
theorem rootWalk_spec : ∀ (a : Typ), properAlias a = true →
    ∃ pre r, rootWalk a = some r ∧ Typ.kind r ≠ Kind.KIND_CUSTOM ∧
      aliasChain a = pre ++ [r] ∧ ∀ u ∈ pre, Typ.kind u = Kind.KIND_CUSTOM
  | .CustomType n p (some b), h => by
    have hb : properAlias b = true := by simpa [properAlias] using h
    obtain ⟨pre, r, h1, h2, h3, h4⟩ := rootWalk_spec b hb
    refine ⟨.CustomType n p (some b) :: pre, r, ?_, h2, ?_, ?_⟩
    · simpa [rootWalk] using h1
    · simp [aliasChain, h3]
    · intro u hu
      rcases List.mem_cons.mp hu with hu | hu
      · subst hu; rfl
      · exact h4 u hu
  | .CustomType n p none, h => by simp [properAlias] at h
  | .SimpleType i, _ =>
    ⟨[], .SimpleType i, by simp [rootWalk], by simp [Typ.kind], by simp [aliasChain], by simp⟩
  | .ArrayType n o, _ =>
    ⟨[], .ArrayType n o, by simp [rootWalk], by simp [Typ.kind], by simp [aliasChain], by simp⟩
  | .SliceType o, _ =>
    ⟨[], .SliceType o, by simp [rootWalk], by simp [Typ.kind], by simp [aliasChain], by simp⟩
  | .MapType b o, _ =>
    ⟨[], .MapType b o, by simp [rootWalk], by simp [Typ.kind], by simp [aliasChain], by simp⟩
  | .FuncType as rs, _ =>
    ⟨[], .FuncType as rs, by simp [rootWalk], by simp [Typ.kind], by simp [aliasChain], by simp⟩
  | .ChanType o d, _ =>
    ⟨[], .ChanType o d, by simp [rootWalk], by simp [Typ.kind], by simp [aliasChain], by simp⟩
  | .PointerType t, _ =>
    ⟨[], .PointerType t, by simp [rootWalk], by simp [Typ.kind], by simp [aliasChain], by simp⟩
  | .TupleType ms, _ =>
    ⟨[], .TupleType ms, by simp [rootWalk], by simp [Typ.kind], by simp [aliasChain], by simp⟩
  | .StructType n fs, _ =>
    ⟨[], .StructType n fs, by simp [rootWalk], by simp [Typ.kind], by simp [aliasChain], by simp⟩
  | .IfaceType n, _ =>
    ⟨[], .IfaceType n, by simp [rootWalk], by simp [Typ.kind], by simp [aliasChain], by simp⟩
  | .GenericParamType n c, _ =>
    ⟨[], .GenericParamType n c, by simp [rootWalk], by simp [Typ.kind], by simp [aliasChain],
      by simp⟩
  | .GenericType n ps st, _ =>
    ⟨[], .GenericType n ps st, by simp [rootWalk], by simp [Typ.kind], by simp [aliasChain],
      by simp⟩
  | .UnknownType, _ =>
    ⟨[], .UnknownType, by simp [rootWalk], by simp [Typ.kind], by simp [aliasChain], by simp⟩

/-- Claim C7: for a custom type whose alias chain is finite and proper (every
link declared — cyclic chains cannot be represented in this value embedding
and are a negotiation-time error upstream), RootType terminates and returns
the first type in the chain whose kind is not the custom kind: the walk chain
decomposes as custom-kind links followed by exactly the returned root. -/
theorem c7_roottype_first_non_alias (n : String) (p : Option String) (a : Typ)
    (h : properAlias a = true) :
    ∃ pre r, Typ.RootType (.CustomType n p (some a)) = some r ∧
      Typ.kind r ≠ Kind.KIND_CUSTOM ∧
      aliasChain a = pre ++ [r] ∧
      ∀ u ∈ pre, Typ.kind u = Kind.KIND_CUSTOM := by
  obtain ⟨pre, r, h1, h2, h3, h4⟩ := rootWalk_spec a h
  exact ⟨pre, r, by simp [Typ.RootType, h1], h2, h3, h4⟩

/-- Witness for C7 at a concrete two-link chain: MyInt aliases B which aliases
int; RootType resolves through the custom link B to int. -/
theorem c7_witness :
    properAlias (.CustomType "B" none (some (.SimpleType .SIMPLE_TYPE_INT))) = true ∧
    ∃ pre r, Typ.RootType (.CustomType "MyInt" none
        (some (.CustomType "B" none (some (.SimpleType .SIMPLE_TYPE_INT))))) = some r ∧
      Typ.kind r ≠ Kind.KIND_CUSTOM ∧
      aliasChain (.CustomType "B" none (some (.SimpleType .SIMPLE_TYPE_INT))) = pre ++ [r] ∧
      ∀ u ∈ pre, Typ.kind u = Kind.KIND_CUSTOM :=
  ⟨by simp [properAlias],
   c7_roottype_first_non_alias "MyInt" none
     (.CustomType "B" none (some (.SimpleType .SIMPLE_TYPE_INT))) (by simp [properAlias])⟩

/-- Helper for C8: membership in the collected variable names of a chain is
exactly being the name of some variable of some VarDecl of the chain. -/
theorem DeclChain.mem_varNames (ch : DeclChain) (x : String) :
    x ∈ DeclChain.varNames ch ↔ ∃ vd ∈ ch, ∃ v ∈ vd.Vars, v.name = x := by
  induction ch with
  | nil => simp [DeclChain.varNames]
  | cons vd rest ih =>
    simp only [DeclChain.varNames, List.mem_append, List.mem_map, ih, List.mem_cons]
    constructor
    · rintro (⟨v, hv, rfl⟩ | ⟨vd2, hvd2, hx⟩)
      · exact ⟨vd, Or.inl rfl, v, hv, rfl⟩
      · exact ⟨vd2, Or.inr hvd2, hx⟩
    · rintro ⟨vd2, (rfl | hvd2), v, hv, rfl⟩
      · exact Or.inl ⟨v, hv, rfl⟩
      · exact Or.inr ⟨vd2, hvd2, v, hv, rfl⟩

/-- Claim C8: Decls returns exactly the introduced names — the full set of
bound variable names for a variable declaration, exactly one name for the
struct, type, interface, generic-function and generic-struct declarations,
the empty set for import, assignment, send, switch, expression, if, for,
for-range, branch and label statements, and a fatal internal-consistency
failure (modelled as none, distinct from a user-facing error value) for every
statement shape outside this closed set. -/
theorem c8_decls_exact :
    (∀ (ch : DeclChain) (b : Bool),
      Stm.Decls (.VarStmt ch b) = some (DeclChain.varNames ch) ∧
      ∀ x, x ∈ DeclChain.varNames ch ↔ ∃ vd ∈ ch, ∃ v ∈ vd.Vars, v.name = x) ∧
    (∀ n : String,
      Stm.Decls (.StructStmt n) = some [n] ∧
      Stm.Decls (.TypeDeclStmt n) = some [n] ∧
      Stm.Decls (.IfaceStmt n) = some [n] ∧
      Stm.Decls (.GenericFuncStmt n) = some [n] ∧
      Stm.Decls (.GenericStructStmt n) = some [n] ∧
      Stm.Decls (.LabelStmt n) = some []) ∧
    (∀ n p : String, Stm.Decls (.ImportStmt n p) = some []) ∧
    Stm.Decls .AssignStmt = some [] ∧
    Stm.Decls .SendStmt = some [] ∧
    Stm.Decls .SwitchStmt = some [] ∧
    Stm.Decls .ExprStmt = some [] ∧
    Stm.Decls .IfStmt = some [] ∧
    Stm.Decls .ForStmt = some [] ∧
    Stm.Decls .ForRangeStmt = some [] ∧
    Stm.Decls .BranchStmt = some [] ∧
    Stm.Decls .PassStmt = none ∧
    Stm.Decls .ReturnStmt = none ∧
    Stm.Decls .WhenStmt = none :=
  ⟨fun ch _ => ⟨rfl, fun x => DeclChain.mem_varNames ch x⟩,
   fun _ => ⟨rfl, rfl, rfl, rfl, rfl, rfl⟩,
   fun _ _ => rfl,
   rfl, rfl, rfl, rfl, rfl, rfl, rfl, rfl, rfl, rfl, rfl⟩

/-- Claim C9: loadDeps fills Deps with exactly the duplicate-free union of the
unbound type names and the unbound identifier names — membership is the union
of the two key sets, each name appears once, and no order is promised. -/
theorem c9_deps_duplicate_free_union (s : TopLevelStmt) :
    (s.loadDeps).Deps.Nodup ∧
    ∀ x : String, x ∈ (s.loadDeps).Deps ↔ x ∈ s.unboundTypes ∨ x ∈ s.unboundIdents := by
  constructor
  · simp [TopLevelStmt.loadDeps, TopLevelStmt.Deps, List.nodup_dedup]
  · intro x
    simp [TopLevelStmt.loadDeps, TopLevelStmt.Deps, List.mem_dedup, List.mem_append]

/-- Claim C10: the subtype traversal (entered through the mapSubtype helper,
which all MapSubtypes implementations use on their children) visits the type
itself first and then its children, descending into a subtree only while the
callback answers continue: with a logging callback the traversal appends
exactly the specified visit order, whose head is the type itself; the method
body MapSubtypes itself contributes exactly the children traversals; and a
rejected root produces no descent at all. -/
theorem c10_traversal_self_first_gated (p : Typ → Bool) (t : Typ) (log : List Typ) :
    mapSubtype (logCB p) t log = log ++ visitSelf p t ∧
    Typ.MapSubtypes (logCB p) t log = log ++ visitChildren p t ∧
    (visitSelf p t).head? = some t ∧
    (p t = false → visitSelf p t = [t]) :=
  ⟨trace_mapSubtype p t log,
   trace_MapSubtypes p t log,
   by rw [visitSelf]; rfl,
   fun h => by rw [visitSelf, h]; rfl⟩

/-- Witness for C10 at a concrete input: a callback that always rejects visits
only the root of a slice-of-int and descends nowhere. -/
theorem c10_witness :
    mapSubtype (logCB (fun _ => false)) (.SliceType (.SimpleType .SIMPLE_TYPE_INT)) []
      = [] ++ visitSelf (fun _ => false) (.SliceType (.SimpleType .SIMPLE_TYPE_INT)) ∧
    visitSelf (fun _ => false) (.SliceType (.SimpleType .SIMPLE_TYPE_INT))
      = [.SliceType (.SimpleType .SIMPLE_TYPE_INT)] :=
  ⟨(c10_traversal_self_first_gated (fun _ => false)
      (.SliceType (.SimpleType .SIMPLE_TYPE_INT)) []).1,
   (c10_traversal_self_first_gated (fun _ => false)
      (.SliceType (.SimpleType .SIMPLE_TYPE_INT)) []).2.2.2 rfl⟩
